import Mathlib

/-!
Shallow embedding of the `order` service (github.com/cooli88/order).

The embedded source is:
  * `internal/entity` — the `Order` entity and `OrderStatus` enumeration;
  * `internal/store` — the `OrderStore` interface, its `ErrOrderNotFound`
    sentinel, and the default behaviour of `MockOrderStore`;
  * `internal/domain/orders` — the four Connect RPC handlers
    (`createOrderHandler`, `getOrderHandler`, `listOrdersHandler`,
    `checkOrderOwnerHandler`) and the `entityToProto` converter.

Go values translate as follows: strings are `String`; `float64` amounts are
`ℚ` (the code only constructs, copies and compares them against zero); the
rational model cannot represent NaN, whose Go comparisons are all false, so
the persisted-amount invariant is additionally examined against a refined
`GoFloat` model that carries NaN;
`time.Time` is a record of unix seconds, sub-second nanoseconds and the
attached zone offset, which is exactly the data `Format` consumes; a Go
`error` value is `Option GoErr` (with `none` for `nil`); pointers that the
handlers may receive as `nil` are `Option`.  Nondeterministic inputs of a
handler (`uuid.New()`, `time.Now()`, the store's answers) are explicit
parameters.  Each handler returns its Go result together with the list of
store calls it performed, so "the store is never invoked" is the trace
being empty.  A nil-pointer dereference is the `panic` outcome.
-/

namespace OrderSvc

/-- Go `entity.OrderStatus`: a string-typed enumeration in Go; its three
declared constants become an inductive. -/
inductive OrderStatus where
  | new
  | inProgress
  | finished
deriving DecidableEq, Repr

/-- The string value backing each `entity.OrderStatus` constant
(`"NEW"`, `"IN_PROGRESS"`, `"FINISHED"`). -/
def OrderStatus.toGoString : OrderStatus → String
  | .new => "NEW"
  | .inProgress => "IN_PROGRESS"
  | .finished => "FINISHED"

/-- Go `time.Time`: an absolute instant (unix seconds plus sub-second
nanoseconds) together with the offset, in seconds east of UTC, of the
location attached to the value.  `Format` reads exactly these fields. -/
structure Time where
  sec : Int
  nsec : Nat
  offset : Int
deriving DecidableEq, Repr

/-- Go `time.Time.UTC()`: same instant, location set to UTC (offset 0). -/
def Time.utc (t : Time) : Time :=
  { t with offset := 0 }

/-- Go `entity.Order`. -/
structure Order where
  id : String
  userID : String
  item : String
  amount : ℚ
  status : OrderStatus
  createdAt : Time
deriving DecidableEq, Repr

/-- Civil date from a count of days since 1970-01-01, the computation Go's
`time` package performs when formatting (days-to-year/month/day).  Written
with C-style truncating `Int` division, matching the standard era-based
algorithm. -/
def civilFromDays (z₀ : Int) : Int × Nat × Nat :=
  let z := z₀ + 719468
  let era : Int := (if 0 ≤ z then z else z - 146096) / 146097
  let doe : Nat := (z - era * 146097).toNat
  let yoe : Nat := (doe - doe / 1460 + doe / 36524 - doe / 146096) / 365
  let y : Int := (yoe : Int) + era * 400
  let doy : Nat := doe - (365 * yoe + yoe / 4 - yoe / 100)
  let mp : Nat := (5 * doy + 2) / 153
  let d : Nat := doy - (153 * mp + 2) / 5 + 1
  let m : Nat := if mp < 10 then mp + 3 else mp - 9
  (if m ≤ 2 then y + 1 else y, m, d)

/-- A decimal digit as a character. -/
def digitChar (n : Nat) : Char :=
  Char.ofNat (48 + n % 10)

/-- Two-digit zero-padded decimal, as `Format` emits for month, day, hour,
minute, second and offset components. -/
def pad2 (n : Nat) : String :=
  ⟨[digitChar (n / 10), digitChar n]⟩

/-- Four-digit zero-padded decimal for the year. -/
def pad4 (n : Nat) : String :=
  ⟨[digitChar (n / 1000), digitChar (n / 100), digitChar (n / 10), digitChar n]⟩

/-- Go `t.Format(time.RFC3339)`: the layout `2006-01-02T15:04:05Z07:00`.
The wall-clock fields are those of `t` in its own location (absolute
seconds shifted by the zone offset); the layout carries no fractional
second, so `nsec` is not read; a zero offset prints `Z`, any other offset
prints a signed `hh:mm`. -/
def formatRFC3339 (t : Time) : String :=
  let localSec : Int := t.sec + t.offset
  let days : Int := Int.fdiv localSec 86400
  let sod : Nat := (localSec - days * 86400).toNat
  let ymd := civilFromDays days
  let date := pad4 ymd.1.toNat ++ "-" ++ pad2 ymd.2.1 ++ "-" ++ pad2 ymd.2.2
  let clock := pad2 (sod / 3600) ++ ":" ++ pad2 (sod % 3600 / 60) ++ ":" ++ pad2 (sod % 60)
  let zone :=
    if t.offset = 0 then "Z"
    else (if 0 < t.offset then "+" else "-") ++
      pad2 (t.offset.natAbs / 3600) ++ ":" ++ pad2 (t.offset.natAbs / 60 % 60)
  date ++ "T" ++ clock ++ zone

/-- Go `orderv1.Order`, the wire representation. -/
structure ProtoOrder where
  id : String
  userId : String
  item : String
  amount : ℚ
  status : String
  createdAt : String
deriving DecidableEq, Repr

/-- Go `entityToProto` from the orders package: field-by-field copy, with the
status cast to its string and `CreatedAt` rendered by
`Format(time.RFC3339)`. -/
def entityToProto (e : Order) : ProtoOrder :=
  { id := e.id
    userId := e.userID
    item := e.item
    amount := e.amount
    status := e.status.toGoString
    createdAt := formatRFC3339 e.createdAt }

/-- Go `error` values that occur in this code base: the store's
`ErrOrderNotFound` sentinel and `errors.New(s)` messages (the only other
errors constructed or passed through).  `errors.Is(err, ErrOrderNotFound)`
is equality with the sentinel. -/
inductive GoErr where
  | orderNotFound
  | msg (s : String)
deriving DecidableEq, Repr

/-- Go `connect.Code` values used by the handlers. -/
inductive Code where
  | invalidArgument
  | notFound
  | internal
  | permissionDenied
deriving DecidableEq, Repr

/-- Go `connect.NewError(code, err)`: a code plus the wrapped underlying
error (`none` when the Go code passes `nil`). -/
structure ConnectError where
  code : Code
  underlying : Option GoErr
deriving DecidableEq, Repr

/-- Outcome of one handler invocation: the Go `(resp, err)` pair, plus
`panic` for a nil-pointer dereference. -/
inductive HResult (α : Type) where
  | ok (resp : α)
  | err (e : ConnectError)
  | panic
deriving DecidableEq, Repr

/-- A call made against the `OrderStore` interface. -/
inductive StoreCall where
  | create (o : Order)
  | get (id : String)
  | list
deriving DecidableEq, Repr

/-- An `OrderStore` implementation, as the behaviour the handlers can
observe: `Create` returns an error or nil; `Get` returns an order pointer
(possibly nil) and an error; `List` returns a slice and an error. -/
structure Store where
  createF : Order → Option GoErr
  getF : String → Option Order × Option GoErr
  listF : List Order × Option GoErr

/-- The zero-valued `MockOrderStore`'s `Get`: with no `GetFunc` installed
it returns `nil, nil`. -/
def mockDefaultGetF : String → Option Order × Option GoErr :=
  fun _ => (none, none)

/-- The zero-valued `MockOrderStore` (no function fields installed):
`Create` returns nil, `Get` returns `nil, nil`, `List` returns a nil
slice (ranged over as empty) and a nil error. -/
def mockDefaultStore : Store :=
  { createF := fun _ => none
    getF := mockDefaultGetF
    listF := ([], none) }

/-- Go `orderv1.CreateOrderRequest`. -/
structure CreateOrderRequest where
  userId : String
  item : String
  amount : ℚ
deriving DecidableEq, Repr

/-- Go `orderv1.CreateOrderResponse`: carries the created order. -/
structure CreateOrderResponse where
  order : ProtoOrder
deriving DecidableEq, Repr

/-- Go `orderv1.GetOrderRequest`. -/
structure GetOrderRequest where
  id : String
deriving DecidableEq, Repr

/-- Go `orderv1.GetOrderResponse`. -/
structure GetOrderResponse where
  order : ProtoOrder
deriving DecidableEq, Repr

/-- Go `orderv1.ListOrdersRequest` (no fields). -/
structure ListOrdersRequest where
deriving DecidableEq, Repr

/-- Go `orderv1.ListOrdersResponse`. -/
structure ListOrdersResponse where
  orders : List ProtoOrder
deriving DecidableEq, Repr

/-- Go `orderv1.CheckOrderOwnerRequest`. -/
structure CheckOrderOwnerRequest where
  orderId : String
  userId : String
deriving DecidableEq, Repr

/-- Go `orderv1.CheckOrderOwnerResponse` (no payload). -/
structure CheckOrderOwnerResponse where
deriving DecidableEq, Repr

/-- Go `createOrderHandler.validate`: `UserId` non-empty, then `Item`
non-empty, then `Amount > 0`; each failure is
`connect.NewError(CodeInvalidArgument, nil)`. -/
def createValidate (req : CreateOrderRequest) : Option ConnectError :=
  if req.userId = "" then some ⟨.invalidArgument, none⟩
  else if req.item = "" then some ⟨.invalidArgument, none⟩
  else if req.amount ≤ 0 then some ⟨.invalidArgument, none⟩
  else none

/-- Go `createOrderHandler.Handle`.  `newID` is the value of
`uuid.New().String()` and `now` the value of `time.Now()` for this
invocation; the handler stores `now.UTC()`.  Returns the Go result and the
trace of store calls. -/
def createOrderHandle (req : CreateOrderRequest) (newID : String) (now : Time)
    (st : Store) : HResult CreateOrderResponse × List StoreCall :=
  match createValidate req with
  | some e => (.err e, [])
  | none =>
    let order : Order :=
      { id := newID
        userID := req.userId
        item := req.item
        amount := req.amount
        status := .new
        createdAt := now.utc }
    match st.createF order with
    | some e => (.err ⟨.internal, some e⟩, [.create order])
    | none => (.ok ⟨entityToProto order⟩, [.create order])

/-- Go `getOrderHandler.validate`: `Id` non-empty, else
`connect.NewError(CodeInvalidArgument, nil)`. -/
def getValidate (req : GetOrderRequest) : Option ConnectError :=
  if req.id = "" then some ⟨.invalidArgument, none⟩
  else none

/-- Go `getOrderHandler.Handle`: validate, `store.Get`, map
`ErrOrderNotFound` to `CodeNotFound` and other errors to `CodeInternal`,
otherwise dereference the returned pointer and convert (a nil pointer with
a nil error panics inside `entityToProto`). -/
def getOrderHandle (req : GetOrderRequest) (st : Store) :
    HResult GetOrderResponse × List StoreCall :=
  match getValidate req with
  | some e => (.err e, [])
  | none =>
    match st.getF req.id with
    | (_, some e) =>
      if e = .orderNotFound then (.err ⟨.notFound, some e⟩, [.get req.id])
      else (.err ⟨.internal, some e⟩, [.get req.id])
    | (some o, none) => (.ok ⟨entityToProto o⟩, [.get req.id])
    | (none, none) => (.panic, [.get req.id])

/-- Go `checkOrderOwnerHandler.validate`: `OrderId` non-empty, then `UserId`
non-empty; each failure is `connect.NewError(CodeInvalidArgument, nil)`. -/
def checkOwnerValidate (req : CheckOrderOwnerRequest) : Option ConnectError :=
  if req.orderId = "" then some ⟨.invalidArgument, none⟩
  else if req.userId = "" then some ⟨.invalidArgument, none⟩
  else none

/-- Go `checkOrderOwnerHandler.Handle`: validate, `store.Get`, map store
errors as the get handler does, then compare the order's `UserID` against
the request's (dereferencing the pointer: nil with nil error panics);
mismatch yields `CodePermissionDenied` wrapping
`errors.New("order does not belong to user")`, match yields the empty
response. -/
def checkOrderOwnerHandle (req : CheckOrderOwnerRequest) (st : Store) :
    HResult CheckOrderOwnerResponse × List StoreCall :=
  match checkOwnerValidate req with
  | some e => (.err e, [])
  | none =>
    match st.getF req.orderId with
    | (_, some e) =>
      if e = .orderNotFound then (.err ⟨.notFound, some e⟩, [.get req.orderId])
      else (.err ⟨.internal, some e⟩, [.get req.orderId])
    | (some o, none) =>
      if o.userID ≠ req.userId then
        (.err ⟨.permissionDenied, some (.msg "order does not belong to user")⟩, [.get req.orderId])
      else (.ok ⟨⟩, [.get req.orderId])
    | (none, none) => (.panic, [.get req.orderId])

/-- Go `listOrdersHandler.validate`: always nil. -/
def listValidate (_ : ListOrdersRequest) : Option ConnectError :=
  none

/-- Go `listOrdersHandler.Handle`: validate (vacuous), `store.List`, any
error yields `CodeInternal`, otherwise convert every order in the store's
slice, preserving order. -/
def listOrdersHandle (req : ListOrdersRequest) (st : Store) :
    HResult ListOrdersResponse × List StoreCall :=
  match listValidate req with
  | some e => (.err e, [])
  | none =>
    match st.listF with
    | (_, some e) => (.err ⟨.internal, some e⟩, [.list])
    | (os, none) => (.ok ⟨os.map entityToProto⟩, [.list])

end OrderSvc

/-! ### Helper lemmas shared by several claims -/

namespace OrderSvc

/-- Length of a two-digit field. -/
theorem pad2_length (n : Nat) : (pad2 n).length = 2 := rfl

/-- Length of the year field. -/
theorem pad4_length (n : Nat) : (pad4 n).length = 4 := rfl

/-- The RFC3339 rendering is never the empty string. -/
theorem formatRFC3339_ne_empty (t : Time) : formatRFC3339 t ≠ "" := by
  unfold formatRFC3339
  intro h
  apply_fun String.length at h
  by_cases h0 : t.offset = 0 <;> by_cases h1 : (0:Int) < t.offset <;>
    simp [h0, h1, String.length_append, pad2_length, pad4_length] at h

/-- The order entity that `createOrderHandler.Handle` builds from a request,
a fresh identifier and the current time. -/
def createdOrder (req : CreateOrderRequest) (newID : String) (now : Time) : Order :=
  { id := newID
    userID := req.userId
    item := req.item
    amount := req.amount
    status := .new
    createdAt := now.utc }

/-- After validation passes, the create handler is the store call on the
built order followed by the error/response branch. -/
theorem createOrderHandle_eq (req : CreateOrderRequest) (newID : String) (now : Time)
    (st : Store) (hv : createValidate req = none) :
    createOrderHandle req newID now st =
      match st.createF (createdOrder req newID now) with
      | some e => (.err ⟨.internal, some e⟩, [.create (createdOrder req newID now)])
      | none => (.ok ⟨entityToProto (createdOrder req newID now)⟩,
                 [.create (createdOrder req newID now)]) := by
  unfold createOrderHandle
  rw [hv]
  rfl

/-- Sample UTC instant 2024-01-15T10:30:00Z (unix 1705314600). -/
def sampleTime : Time := ⟨1705314600, 0, 0⟩

/-- Sample order used to instantiate witnesses, mirroring the unit-test
fixtures. -/
def sampleOrder : Order :=
  { id := "order-123"
    userID := "user-456"
    item := "Test Item"
    amount := 4999 / 100
    status := .new
    createdAt := sampleTime }

/-- A store holding exactly `sampleOrder`, answering `Get` with the
not-found sentinel elsewhere. -/
def sampleStore : Store :=
  { createF := fun _ => none
    getF := fun i => if i = "order-123" then (some sampleOrder, none) else (none, some .orderNotFound)
    listF := ([sampleOrder], none) }

/-- A store whose operations all fail with a database error. -/
def failingStore : Store :=
  { createF := fun _ => some (.msg "database connection failed")
    getF := fun _ => (none, some (.msg "database connection failed"))
    listF := ([], some (.msg "database connection failed")) }

/-! ### Claims -/

/-- C1: a CreateOrder request with empty `user_id`, empty `item`, or
`amount ≤ 0` (zero and negative included) yields the invalid-argument
error and an empty store trace — the store's Create is never invoked; all
three checks surface the identical error, so whichever fails first the
result is the same. -/
theorem createOrder_rejects_invalid (req : CreateOrderRequest) (newID : String)
    (now : Time) (st : Store)
    (h : req.userId = "" ∨ req.item = "" ∨ req.amount ≤ 0) :
    createOrderHandle req newID now st = (.err ⟨.invalidArgument, none⟩, []) := by
  unfold createOrderHandle createValidate
  by_cases h1 : req.userId = "" <;> by_cases h2 : req.item = "" <;>
    rcases h with h | h | h <;> simp_all

/-- C1 witness: the zero-amount request is rejected with no store call. -/
theorem createOrder_rejects_invalid_witness :
    ((⟨"user-123", "Widget", 0⟩ : CreateOrderRequest).userId = "" ∨
      (⟨"user-123", "Widget", 0⟩ : CreateOrderRequest).item = "" ∨
      (⟨"user-123", "Widget", 0⟩ : CreateOrderRequest).amount ≤ 0) ∧
    createOrderHandle ⟨"user-123", "Widget", 0⟩ "id-1" sampleTime mockDefaultStore =
      (.err ⟨.invalidArgument, none⟩, []) :=
  ⟨Or.inr (Or.inr (by norm_num)),
   createOrder_rejects_invalid ⟨"user-123", "Widget", 0⟩ "id-1" sampleTime mockDefaultStore
     (Or.inr (Or.inr (by norm_num)))⟩

/-- C2: on a valid request whose store Create succeeds, the handler stores
exactly one order and answers with its wire form; the wire order carries
the request's `user_id`, `item` and `amount`, status `"NEW"`, a non-empty
identifier (granted the generator never yields the empty string) and a
populated `created_at`; two invocations with distinct fresh identifiers
return orders with distinct identifiers. -/
theorem createOrder_success (req : CreateOrderRequest) (id1 id2 : String)
    (t1 t2 : Time) (st : Store)
    (hu : req.userId ≠ "") (hi : req.item ≠ "") (ha : 0 < req.amount)
    (hID1 : id1 ≠ "") (hne : id1 ≠ id2)
    (hok1 : st.createF (createdOrder req id1 t1) = none)
    (hok2 : st.createF (createdOrder req id2 t2) = none) :
    createOrderHandle req id1 t1 st =
      (.ok ⟨entityToProto (createdOrder req id1 t1)⟩, [.create (createdOrder req id1 t1)]) ∧
    createOrderHandle req id2 t2 st =
      (.ok ⟨entityToProto (createdOrder req id2 t2)⟩, [.create (createdOrder req id2 t2)]) ∧
    (entityToProto (createdOrder req id1 t1)).id ≠ "" ∧
    (entityToProto (createdOrder req id1 t1)).id ≠ (entityToProto (createdOrder req id2 t2)).id ∧
    (entityToProto (createdOrder req id1 t1)).userId = req.userId ∧
    (entityToProto (createdOrder req id1 t1)).item = req.item ∧
    (entityToProto (createdOrder req id1 t1)).amount = req.amount ∧
    (entityToProto (createdOrder req id1 t1)).status = "NEW" ∧
    (entityToProto (createdOrder req id1 t1)).createdAt ≠ "" := by
  have hv : createValidate req = none := by
    unfold createValidate
    simp [hu, hi, not_le.mpr ha]
  refine ⟨?_, ?_, hID1, hne, rfl, rfl, rfl, rfl, formatRFC3339_ne_empty _⟩
  · rw [createOrderHandle_eq req id1 t1 st hv, hok1]
  · rw [createOrderHandle_eq req id2 t2 st hv, hok2]

/-- C2 witness: two concrete valid invocations with distinct fresh
identifiers. -/
theorem createOrder_success_witness :
    createOrderHandle ⟨"user-123", "Widget", 9999/100⟩ "id-1" sampleTime mockDefaultStore =
      (.ok ⟨entityToProto (createdOrder ⟨"user-123", "Widget", 9999/100⟩ "id-1" sampleTime)⟩,
       [.create (createdOrder ⟨"user-123", "Widget", 9999/100⟩ "id-1" sampleTime)]) ∧
    (entityToProto (createdOrder ⟨"user-123", "Widget", 9999/100⟩ "id-1" sampleTime)).id ≠
      (entityToProto (createdOrder ⟨"user-123", "Widget", 9999/100⟩ "id-2" sampleTime)).id :=
  have h := createOrder_success ⟨"user-123", "Widget", 9999/100⟩ "id-1" "id-2"
    sampleTime sampleTime mockDefaultStore
    (by decide) (by decide) (by norm_num) (by decide) (by decide) rfl rfl
  ⟨h.1, h.2.2.2.1⟩

end OrderSvc

namespace OrderSvc

/-- Go `float64` at the fidelity the create handler's amount check needs:
a float is NaN or carries a numeric value.  Numeric values are modelled by
their exact rational value, which preserves every comparison against zero
the code performs (the infinities, which compare like values of arbitrarily
large magnitude, add nothing to a comparison with `0`).  The rational model
used elsewhere in this development cannot represent NaN; this refinement
exists because NaN changes the outcome of `Amount <= 0`. -/
inductive GoFloat where
  | nan
  | val (q : ℚ)
deriving DecidableEq, Repr

/-- Go `<=` on `float64`: any comparison involving NaN is false. -/
def GoFloat.le : GoFloat → GoFloat → Bool
  | .nan, _ => false
  | _, .nan => false
  | .val a, .val b => a ≤ b

/-- Go `<` on `float64`: any comparison involving NaN is false. -/
def GoFloat.lt : GoFloat → GoFloat → Bool
  | .nan, _ => false
  | _, .nan => false
  | .val a, .val b => a < b

/-- Go `orderv1.CreateOrderRequest` with the `double` amount kept at float
fidelity. -/
structure CreateOrderRequestF where
  userId : String
  item : String
  amount : GoFloat
deriving DecidableEq, Repr

/-- Go `entity.Order` with the `float64` amount kept at float fidelity. -/
structure OrderF where
  id : String
  userID : String
  item : String
  amount : GoFloat
  status : OrderStatus
  createdAt : Time
deriving DecidableEq, Repr

/-- Go `createOrderHandler.validate` at float fidelity: the same three
checks, with `req.Amount <= 0` being Go's float comparison. -/
def createValidateF (req : CreateOrderRequestF) : Option ConnectError :=
  if req.userId = "" then some ⟨.invalidArgument, none⟩
  else if req.item = "" then some ⟨.invalidArgument, none⟩
  else if req.amount.le (.val 0) then some ⟨.invalidArgument, none⟩
  else none

/-- Go `createOrderHandler.Handle` at float fidelity, projected to the fact
that decides which order reaches the store: the order the handler passes to
`store.Create` (`none` when validation rejects the request; the store's
answer does not influence which order is passed). -/
def createdOrderF (req : CreateOrderRequestF) (newID : String) (now : Time) :
    Option OrderF :=
  match createValidateF req with
  | some _ => none
  | none =>
    some { id := newID
           userID := req.userId
           item := req.item
           amount := req.amount
           status := .new
           createdAt := now.utc }

/-- C7: the claimed invariant fails in the code at `float64` fidelity — a
request whose amount is NaN passes `createOrderHandler.validate`, because
Go's `NaN <= 0` is false, so the order handed to `store.Create` carries a
NaN amount, for which `amount > 0` is also false.  The spec's data-model
invariant is the evident intent of the validation; the `Amount <= 0` check
is a slip for NaN. -/
theorem createOrder_nan_escapes_validation :
    createValidateF ⟨"user-123", "Widget", .nan⟩ = none ∧
    createdOrderF ⟨"user-123", "Widget", .nan⟩ "id-1" sampleTime =
      some { id := "id-1"
             userID := "user-123"
             item := "Widget"
             amount := .nan
             status := .new
             createdAt := sampleTime.utc } ∧
    (GoFloat.val 0).lt .nan = false ∧
    GoFloat.nan.le (.val 0) = false := by
  refine ⟨by decide, by decide, rfl, rfl⟩

/-- C4: the get handler rejects an empty `id` with the invalid-argument
error and no store call; on a non-empty `id` it performs exactly one Get
and maps the sentinel to NotFound, any other store error to Internal, and
a found order to its wire form. -/
theorem getOrder_behavior (req : GetOrderRequest) (st : Store) :
    (req.id = "" → getOrderHandle req st = (.err ⟨.invalidArgument, none⟩, [])) ∧
    (req.id ≠ "" → (getOrderHandle req st).2 = [.get req.id]) ∧
    (∀ ord, req.id ≠ "" → st.getF req.id = (ord, some .orderNotFound) →
      getOrderHandle req st = (.err ⟨.notFound, some .orderNotFound⟩, [.get req.id])) ∧
    (∀ ord s, req.id ≠ "" → st.getF req.id = (ord, some (.msg s)) →
      getOrderHandle req st = (.err ⟨.internal, some (.msg s)⟩, [.get req.id])) ∧
    (∀ o, req.id ≠ "" → st.getF req.id = (some o, none) →
      getOrderHandle req st = (.ok ⟨entityToProto o⟩, [.get req.id])) := by
  refine ⟨fun h => ?_, fun h => ?_, fun ord h hg => ?_, fun ord s h hg => ?_, fun o h hg => ?_⟩
  · unfold getOrderHandle getValidate
    simp [h]
  · unfold getOrderHandle getValidate
    rcases hg : st.getF req.id with ⟨ord, err⟩
    rcases ord with _ | o <;> rcases err with _ | e <;> (try rcases e with _ | s) <;>
      simp [h, hg]
  · unfold getOrderHandle getValidate
    simp [h, hg]
  · unfold getOrderHandle getValidate
    simp [h, hg]
  · unfold getOrderHandle getValidate
    simp [h, hg]

/-- C4 witness: the empty id, a found order, the sentinel, and a database
error, each at a concrete input. -/
theorem getOrder_behavior_witness :
    getOrderHandle ⟨""⟩ mockDefaultStore = (.err ⟨.invalidArgument, none⟩, []) ∧
    getOrderHandle ⟨"order-123"⟩ sampleStore =
      (.ok ⟨entityToProto sampleOrder⟩, [.get "order-123"]) ∧
    getOrderHandle ⟨"missing"⟩ sampleStore =
      (.err ⟨.notFound, some .orderNotFound⟩, [.get "missing"]) ∧
    getOrderHandle ⟨"order-123"⟩ failingStore =
      (.err ⟨.internal, some (.msg "database connection failed")⟩, [.get "order-123"]) :=
  ⟨(getOrder_behavior ⟨""⟩ mockDefaultStore).1 rfl,
   (getOrder_behavior ⟨"order-123"⟩ sampleStore).2.2.2.2 sampleOrder (by decide) rfl,
   (getOrder_behavior ⟨"missing"⟩ sampleStore).2.2.1 none (by decide) rfl,
   (getOrder_behavior ⟨"order-123"⟩ failingStore).2.2.2.1 none "database connection failed"
     (by decide) rfl⟩

end OrderSvc

namespace OrderSvc

/-- C3: the check-owner handler rejects an empty `order_id` or `user_id`
with the invalid-argument error and no store call; otherwise it fetches the
order once and maps the sentinel to NotFound (before any ownership
comparison — no order is compared in that branch), any other store error to
Internal, an ownership mismatch to PermissionDenied carrying
"order does not belong to user", and a match to the empty success
response. -/
theorem checkOrderOwner_behavior (req : CheckOrderOwnerRequest) (st : Store) :
    (req.orderId = "" ∨ req.userId = "" →
      checkOrderOwnerHandle req st = (.err ⟨.invalidArgument, none⟩, [])) ∧
    (∀ ord, req.orderId ≠ "" → req.userId ≠ "" →
      st.getF req.orderId = (ord, some .orderNotFound) →
      checkOrderOwnerHandle req st = (.err ⟨.notFound, some .orderNotFound⟩, [.get req.orderId])) ∧
    (∀ ord s, req.orderId ≠ "" → req.userId ≠ "" →
      st.getF req.orderId = (ord, some (.msg s)) →
      checkOrderOwnerHandle req st = (.err ⟨.internal, some (.msg s)⟩, [.get req.orderId])) ∧
    (∀ o, req.orderId ≠ "" → req.userId ≠ "" → st.getF req.orderId = (some o, none) →
      o.userID ≠ req.userId →
      checkOrderOwnerHandle req st =
        (.err ⟨.permissionDenied, some (.msg "order does not belong to user")⟩,
         [.get req.orderId])) ∧
    (∀ o, req.orderId ≠ "" → req.userId ≠ "" → st.getF req.orderId = (some o, none) →
      o.userID = req.userId →
      checkOrderOwnerHandle req st = (.ok ⟨⟩, [.get req.orderId])) := by
  refine ⟨fun h => ?_, fun ord h1 h2 hg => ?_, fun ord s h1 h2 hg => ?_,
    fun o h1 h2 hg ho => ?_, fun o h1 h2 hg ho => ?_⟩
  · unfold checkOrderOwnerHandle checkOwnerValidate
    rcases h with h | h
    · simp [h]
    · by_cases h1 : req.orderId = "" <;> simp [h, h1]
  · unfold checkOrderOwnerHandle checkOwnerValidate
    simp [h1, h2, hg]
  · unfold checkOrderOwnerHandle checkOwnerValidate
    simp [h1, h2, hg]
  · unfold checkOrderOwnerHandle checkOwnerValidate
    simp [h1, h2, hg, ho]
  · unfold checkOrderOwnerHandle checkOwnerValidate
    simp [h1, h2, hg, ho]

/-- C3 witness: matching owner, mismatched owner, missing order, store
error, and the two empty-field rejections, each at a concrete input. -/
theorem checkOrderOwner_behavior_witness :
    checkOrderOwnerHandle ⟨"order-123", "user-456"⟩ sampleStore = (.ok ⟨⟩, [.get "order-123"]) ∧
    checkOrderOwnerHandle ⟨"order-123", "different-user"⟩ sampleStore =
      (.err ⟨.permissionDenied, some (.msg "order does not belong to user")⟩,
       [.get "order-123"]) ∧
    checkOrderOwnerHandle ⟨"missing", "user-456"⟩ sampleStore =
      (.err ⟨.notFound, some .orderNotFound⟩, [.get "missing"]) ∧
    checkOrderOwnerHandle ⟨"order-123", "user-456"⟩ failingStore =
      (.err ⟨.internal, some (.msg "database connection failed")⟩, [.get "order-123"]) ∧
    checkOrderOwnerHandle ⟨"", "user-456"⟩ mockDefaultStore =
      (.err ⟨.invalidArgument, none⟩, []) ∧
    checkOrderOwnerHandle ⟨"order-123", ""⟩ mockDefaultStore =
      (.err ⟨.invalidArgument, none⟩, []) :=
  ⟨(checkOrderOwner_behavior ⟨"order-123", "user-456"⟩ sampleStore).2.2.2.2 sampleOrder
     (by decide) (by decide) rfl rfl,
   (checkOrderOwner_behavior ⟨"order-123", "different-user"⟩ sampleStore).2.2.2.1 sampleOrder
     (by decide) (by decide) rfl (by decide),
   (checkOrderOwner_behavior ⟨"missing", "user-456"⟩ sampleStore).2.1 none
     (by decide) (by decide) rfl,
   (checkOrderOwner_behavior ⟨"order-123", "user-456"⟩ failingStore).2.2.1 none
     "database connection failed" (by decide) (by decide) rfl,
   (checkOrderOwner_behavior ⟨"", "user-456"⟩ mockDefaultStore).1 (Or.inl rfl),
   (checkOrderOwner_behavior ⟨"order-123", ""⟩ mockDefaultStore).1 (Or.inr rfl)⟩

/-- C5: the list handler forwards a successful store List verbatim — the
response is the element-wise wire conversion of the store's sequence, same
length, same order, with the empty sequence mapped to the empty (non-error)
response — and any store error yields the internal-error result. -/
theorem listOrders_behavior (req : ListOrdersRequest) (st : Store) :
    (∀ os, st.listF = (os, none) →
      listOrdersHandle req st = (.ok ⟨os.map entityToProto⟩, [.list]) ∧
      (os.map entityToProto).length = os.length ∧
      (os = [] → listOrdersHandle req st = (.ok ⟨[]⟩, [.list]))) ∧
    (∀ os e, st.listF = (os, some e) →
      listOrdersHandle req st = (.err ⟨.internal, some e⟩, [.list])) := by
  refine ⟨fun os hl => ⟨?_, List.length_map os entityToProto, fun he => ?_⟩,
    fun os e hl => ?_⟩
  · unfold listOrdersHandle listValidate
    simp [hl]
  · unfold listOrdersHandle listValidate
    subst he
    simp [hl]
  · unfold listOrdersHandle listValidate
    simp [hl]

/-- C5 witness: a one-element store, the empty store, and a failing store,
each at a concrete input. -/
theorem listOrders_behavior_witness :
    listOrdersHandle ⟨⟩ sampleStore = (.ok ⟨[entityToProto sampleOrder]⟩, [.list]) ∧
    listOrdersHandle ⟨⟩ mockDefaultStore = (.ok ⟨[]⟩, [.list]) ∧
    listOrdersHandle ⟨⟩ failingStore =
      (.err ⟨.internal, some (.msg "database connection failed")⟩, [.list]) :=
  ⟨((listOrders_behavior ⟨⟩ sampleStore).1 [sampleOrder] rfl).1,
   ((listOrders_behavior ⟨⟩ mockDefaultStore).1 [] rfl).2.2 rfl,
   (listOrders_behavior ⟨⟩ failingStore).2 [] (.msg "database connection failed") rfl⟩

end OrderSvc

namespace OrderSvc

/-- C8: on any store whose Get answers a nil order with a nil error — the
zero-valued mock's default — both the get handler and the check-owner
handler dereference the nil pointer and crash; and whenever a successful
Get always carries a non-nil order, neither handler can crash. -/
theorem handlers_nil_deref (req : GetOrderRequest) (creq : CheckOrderOwnerRequest)
    (st : Store)
    (h1 : req.id ≠ "") (h2 : creq.orderId ≠ "") (h3 : creq.userId ≠ "")
    (hg1 : st.getF req.id = (none, none)) (hg2 : st.getF creq.orderId = (none, none)) :
    (getOrderHandle req st).1 = .panic ∧
    (checkOrderOwnerHandle creq st).1 = .panic ∧
    (∀ st' : Store, (∀ i, st'.getF i ≠ (none, none)) →
      (getOrderHandle req st').1 ≠ .panic ∧ (checkOrderOwnerHandle creq st').1 ≠ .panic) := by
  refine ⟨?_, ?_, fun st' hnn => ⟨?_, ?_⟩⟩
  · unfold getOrderHandle getValidate
    simp [h1, hg1]
  · unfold checkOrderOwnerHandle checkOwnerValidate
    simp [h2, h3, hg2]
  · unfold getOrderHandle getValidate
    rcases hg : st'.getF req.id with ⟨ord, err⟩
    rcases ord with _ | o <;> rcases err with _ | e
    · exact absurd hg (hnn req.id)
    · rcases e with _ | s <;> simp [h1, hg]
    · simp [h1, hg]
    · rcases e with _ | s <;> simp [h1, hg]
  · unfold checkOrderOwnerHandle checkOwnerValidate
    rcases hg : st'.getF creq.orderId with ⟨ord, err⟩
    rcases ord with _ | o <;> rcases err with _ | e
    · exact absurd hg (hnn creq.orderId)
    · rcases e with _ | s <;> simp [h2, h3, hg]
    · by_cases ho : o.userID = creq.userId <;> simp [h2, h3, hg, ho]
    · rcases e with _ | s <;> simp [h2, h3, hg]

/-- C8 witness: both handlers crash against the zero-valued mock store on
concrete valid requests. -/
theorem handlers_nil_deref_witness :
    mockDefaultStore.getF "order-123" = (none, none) ∧
    (getOrderHandle ⟨"order-123"⟩ mockDefaultStore).1 = .panic ∧
    (checkOrderOwnerHandle ⟨"order-123", "user-456"⟩ mockDefaultStore).1 = .panic :=
  have h := handlers_nil_deref ⟨"order-123"⟩ ⟨"order-123", "user-456"⟩ mockDefaultStore
    (by decide) (by decide) (by decide) rfl rfl
  ⟨rfl, h.1, h.2.1⟩

/-- C9: every validation failure across the three validating handlers is
the identical error — invalid-argument with no underlying error and hence
no message — so two failures for different fields are observationally
equal. -/
theorem invalidInput_indistinct :
    (∀ req e, createValidate req = some e → e = ⟨.invalidArgument, none⟩) ∧
    (∀ req e, getValidate req = some e → e = ⟨.invalidArgument, none⟩) ∧
    (∀ req e, checkOwnerValidate req = some e → e = ⟨.invalidArgument, none⟩) ∧
    (∀ r₁ r₂ e₁ e₂, createValidate r₁ = some e₁ → checkOwnerValidate r₂ = some e₂ →
      e₁ = e₂) := by
  have hc : ∀ req e, createValidate req = some e → e = ⟨.invalidArgument, none⟩ := by
    intro req e h
    unfold createValidate at h
    split_ifs at h <;> simp_all
  have hg : ∀ req e, getValidate req = some e → e = ⟨.invalidArgument, none⟩ := by
    intro req e h
    unfold getValidate at h
    split_ifs at h
    simp_all
  have ho : ∀ req e, checkOwnerValidate req = some e → e = ⟨.invalidArgument, none⟩ := by
    intro req e h
    unfold checkOwnerValidate at h
    split_ifs at h <;> simp_all
  exact ⟨hc, hg, ho, fun r₁ r₂ e₁ e₂ hA hB => (hc r₁ e₁ hA).trans (ho r₂ e₂ hB).symm⟩

/-- C9 witness: an empty `user_id` on Create and an empty `user_id` on
CheckOwner produce the same error value. -/
theorem invalidInput_indistinct_witness :
    createValidate ⟨"", "Widget", 5⟩ = some ⟨.invalidArgument, none⟩ ∧
    checkOwnerValidate ⟨"order-1", ""⟩ = some ⟨.invalidArgument, none⟩ ∧
    (⟨.invalidArgument, none⟩ : ConnectError) = ⟨.invalidArgument, none⟩ :=
  ⟨by decide, by decide,
   invalidInput_indistinct.2.2.2 ⟨"", "Widget", 5⟩ ⟨"order-1", ""⟩
     ⟨.invalidArgument, none⟩ ⟨.invalidArgument, none⟩ (by decide) (by decide)⟩

/-- The sample instant viewed from a +01:00 zone: same absolute time as
2024-01-15T09:30:00Z. -/
def tzTime : Time := ⟨1705311000, 0, 3600⟩

/-- Sample order whose creation time carries a non-UTC zone. -/
def tzOrder : Order := { sampleOrder with createdAt := tzTime }

/-- C6 counterexample: an order whose `created_at` carries a +01:00 zone is
rendered in that zone, `2024-01-15T10:30:00+01:00`, not as the UTC string
`2024-01-15T09:30:00Z` of the same instant — the conversion is not "in UTC
regardless of the time zone attached". -/
theorem entityToProto_not_always_utc :
    (entityToProto tzOrder).createdAt = "2024-01-15T10:30:00+01:00" ∧
    (entityToProto { tzOrder with createdAt := tzOrder.createdAt.utc }).createdAt =
      "2024-01-15T09:30:00Z" ∧
    (entityToProto tzOrder).createdAt ≠
      (entityToProto { tzOrder with createdAt := tzOrder.createdAt.utc }).createdAt :=
  ⟨by decide, by decide, by decide⟩

/-- C6 (amended): the conversion is a pure field-wise map — identifier and
string fields copied verbatim, `amount` verbatim, `status` as its
enumerated name, `created_at` rendered by RFC3339 in the zone the timestamp
carries; a UTC timestamp such as 2024-01-15 10:30:00 UTC renders as
`2024-01-15T10:30:00Z`. -/
theorem entityToProto_pure_mapping (e : Order) :
    (entityToProto e).id = e.id ∧
    (entityToProto e).userId = e.userID ∧
    (entityToProto e).item = e.item ∧
    (entityToProto e).amount = e.amount ∧
    (entityToProto e).status = e.status.toGoString ∧
    (entityToProto e).createdAt = formatRFC3339 e.createdAt ∧
    formatRFC3339 ⟨1705314600, 0, 0⟩ = "2024-01-15T10:30:00Z" :=
  ⟨rfl, rfl, rfl, rfl, rfl, rfl, by decide⟩

/-- C10: the RFC3339 rendering drops the sub-second component — two orders
whose creation times differ only in nanoseconds produce identical
`created_at` strings, and a time with nanoseconds set renders with whole
seconds only. -/
theorem entityToProto_truncates_subsecond (e : Order) (n₁ n₂ : Nat) :
    (entityToProto { e with createdAt := { e.createdAt with nsec := n₁ } }).createdAt =
      (entityToProto { e with createdAt := { e.createdAt with nsec := n₂ } }).createdAt ∧
    (entityToProto { sampleOrder with createdAt := ⟨1705314600, 123456789, 0⟩ }).createdAt =
      "2024-01-15T10:30:00Z" :=
  ⟨rfl, by decide⟩

end OrderSvc
